import Mathlib

/-!
Shallow embedding of the fast_food data-seeding utility.

The source is a TypeScript module that seeds an Appwrite backend: safe
deletion helpers, bulk clear of four collections and one storage bucket,
an image upload helper with a placeholder fallback, and a single-flight
guarded seed orchestrator, plus a Search screen whose Seed button calls
the orchestrator.

Remote behavior (which create, delete, list, fetch and upload calls
succeed or fail) is abstracted into an environment of oracles, and the
remote store is an explicit record of typed document lists.  Fresh
store-assigned IDs are modeled by a counter threaded through the run.
-/

namespace FastFood

/-- Seed dataset category entry, interface Category of the source. -/
structure Category where
  name : String
  description : String
  deriving Repr, DecidableEq

/-- Seed dataset customization entry, interface Customization of the source. -/
structure Customization where
  name : String
  price : ℚ
  type : String
  deriving Repr, DecidableEq

/-- Seed dataset menu entry, interface MenuItem of the source. -/
structure MenuItem where
  name : String
  description : String
  image_url : String
  price : ℚ
  rating : ℚ
  calories : ℚ
  protein : ℚ
  category_name : String
  customizations : List String
  deriving Repr, DecidableEq

/-- Seed dataset, interface DummyData of the source. -/
structure DummyData where
  categories : List Category
  customizations : List Customization
  menu : List MenuItem
  deriving Repr, DecidableEq

/-- Stored category document with its store-assigned ID. -/
structure CategoryDoc where
  id : Nat
  data : Category
  deriving Repr, DecidableEq

/-- Stored customization document with its store-assigned ID. -/
structure CustomizationDoc where
  id : Nat
  data : Customization
  deriving Repr, DecidableEq

/-- Stored menu document: the fields the seed sends to createDocument.
The categories field is the single category ID resolved through the
name map; a missing name gives an absent (undefined) reference. -/
structure MenuDoc where
  id : Nat
  name : String
  description : String
  image_url : String
  price : ℚ
  rating : ℚ
  calories : ℚ
  protein : ℚ
  categories : Option Nat
  deriving Repr, DecidableEq

/-- Stored menu_customizations join document: one menu ID and one
customization ID (absent when the name map has no entry). -/
structure MenuCustDoc where
  id : Nat
  menu : Nat
  customizations : Option Nat
  deriving Repr, DecidableEq

/-- Stored file in the storage bucket. -/
structure FileDoc where
  id : Nat
  name : String
  deriving Repr, DecidableEq

/-- Remote store: the four collections of appwriteConfig plus the bucket. -/
structure Store where
  categories : List CategoryDoc
  customizations : List CustomizationDoc
  menu : List MenuDoc
  menuCust : List MenuCustDoc
  files : List FileDoc
  deriving Repr, DecidableEq

/-- Store with every collection and the bucket empty. -/
def emptyStore : Store := ⟨[], [], [], [], []⟩

/-- Collections and the storage bucket addressed by remote calls. -/
inductive Col where
  | categories
  | customizations
  | menu
  | menuCust
  | storage
  deriving Repr, DecidableEq

/-- Error escaping a clear phase: a failed listing call, or a delete that
failed with a code other than 404. -/
inductive RErr where
  | listFailed : RErr
  | deleteFailed : Nat → RErr
  deriving Repr, DecidableEq

/-- Oracles fixing the behavior of every remote call of one run: whether
each listing fails, the error code (if any) each delete reports, whether
each create call fails, and the outcome of each image fetch and upload. -/
structure Env where
  listFails : Col → Bool
  deleteErr : Col → Nat → Option Nat
  createCatErr : Category → Bool
  createCusErr : Customization → Bool
  createMenuErr : MenuItem → Bool
  createJoinErr : String → String → Bool
  fetchThrows : String → Bool
  fetchOk : String → Bool
  createFileErr : String → Bool

/-- Environment in which every remote operation succeeds. -/
def envOk : Env where
  listFails := fun _ => false
  deleteErr := fun _ _ => none
  createCatErr := fun _ => false
  createCusErr := fun _ => false
  createMenuErr := fun _ => false
  createJoinErr := fun _ _ => false
  fetchThrows := fun _ => false
  fetchOk := fun _ => true
  createFileErr := fun _ => false

/-- Remote deleteDocument or deleteFile call on a collection of docs: the
oracle value e is the error the remote reports for this call; on success
the record with the given ID is removed. -/
def deleteDocument {α : Type} (idOf : α → Nat) (e : Option Nat) (docs : List α)
    (i : Nat) : Except Nat (List α) :=
  match e with
  | some c => Except.error c
  | none => Except.ok (docs.filter (fun doc => idOf doc != i))

/-- Function safeDeleteDocument of the source: issue the delete and treat
a 404 (not found) error as success; any other error is rethrown. -/
def safeDeleteDocument {α : Type} (idOf : α → Nat) (e : Option Nat) (docs : List α)
    (i : Nat) : Except Nat (List α) :=
  match deleteDocument idOf e docs i with
  | Except.ok l => Except.ok l
  | Except.error c => if c = 404 then Except.ok docs else Except.error c

/-- Error code that safeDeleteDocument would rethrow for a delete that
reported e: none on success and on a 404. -/
def hardErr (e : Option Nat) : Option Nat :=
  match e with
  | none => none
  | some c => if c = 404 then none else some c

/-- Whether a document survives the clear phase: it does exactly when its
delete failed with a code other than 404. -/
def isKept (e : Option Nat) : Bool := (hardErr e).isSome

/-- Function clearAll of the source (and the body of clearStorage): list
the collection once, then run safeDeleteDocument for every listed doc via
Promise.all.  Every delete is issued against the listed snapshot, so the
surviving docs are exactly those whose delete failed with a non-404 code,
and the phase surfaces an error iff the listing failed or some delete
failed with a non-404 code. -/
def clearAll {α : Type} (idOf : α → Nat) (listFail : Bool) (derr : Nat → Option Nat)
    (docs : List α) : List α × Option RErr :=
  if listFail then (docs, some RErr.listFailed)
  else
    (docs.filter (fun doc => isKept (derr (idOf doc))),
     (docs.findSome? (fun doc => hardErr (derr (idOf doc)))).map RErr.deleteFailed)

/-- Function clearStorage of the source: clearAll over the bucket files. -/
def clearStorage (env : Env) (files : List FileDoc) : List FileDoc × Option RErr :=
  clearAll (fun f => f.id) (env.listFails Col.storage) (env.deleteErr Col.storage) files

/-- Literal placeholder URL returned when the image pipeline fails. -/
def placeholderURL : String := "https://via.placeholder.com/150"

/-- Public view URL of an uploaded file, modeling storage.getFileViewURL. -/
def getFileViewURL (i : Nat) : String := "appwrite://view/" ++ toString i

/-- File name derived from the last path segment of the source URL, with
a fixed fallback name when the segment is empty (Date.now is modeled as a
constant; no claim depends on the fallback name). -/
def fileNameOf (url : String) : String :=
  let seg := (url.splitOn "/").getLastD ""
  if seg = "" then "file-0.jpg" else seg

/-- Try block of uploadImageToStorage: fetch the image (a thrown fetch or
a non-ok response both raise), then create the file with a fresh ID and
return its public view URL. -/
def uploadImageAttempt (env : Env) (url : String) (s : Store) (n : Nat) :
    Except Unit (Store × Nat × String) :=
  if env.fetchThrows url then Except.error ()
  else if !env.fetchOk url then Except.error ()
  else if env.createFileErr url then Except.error ()
  else Except.ok ({ s with files := s.files ++ [⟨n, fileNameOf url⟩] }, n + 1,
                  getFileViewURL n)

/-- Function uploadImageToStorage of the source: run the attempt and, on
any failure, log a warning and return the fixed placeholder URL instead
of propagating the error. -/
def uploadImageToStorage (env : Env) (url : String) (s : Store) (n : Nat) :
    Store × Nat × String :=
  match uploadImageAttempt env url s n with
  | Except.ok r => r
  | Except.error _ => (s, n, placeholderURL)

/-- Category creation loop of seed: create each category with a fresh ID;
a per-item failure is logged and skipped, so it adds no record and no map
entry.  The name map is an assoc list with the newest binding in front,
matching the last-write-wins assignment of the source. -/
def createCategories (env : Env) (cats : List Category) (s : Store) (n : Nat)
    (m : List (String × Nat)) : Store × Nat × List (String × Nat) :=
  match cats with
  | [] => (s, n, m)
  | c :: rest =>
    if env.createCatErr c then createCategories env rest s n m
    else
      createCategories env rest { s with categories := s.categories ++ [⟨n, c⟩] }
        (n + 1) ((c.name, n) :: m)

/-- Customization creation loop of seed, same shape as the categories. -/
def createCustomizations (env : Env) (cuss : List Customization) (s : Store) (n : Nat)
    (m : List (String × Nat)) : Store × Nat × List (String × Nat) :=
  match cuss with
  | [] => (s, n, m)
  | c :: rest =>
    if env.createCusErr c then createCustomizations env rest s n m
    else
      createCustomizations env rest
        { s with customizations := s.customizations ++ [⟨n, c⟩] } (n + 1)
        ((c.name, n) :: m)

/-- Menu document sent by seed for one item: the dataset fields, the
resolved image URL, and the category reference looked up by name. -/
def mkMenuDoc (i : Nat) (item : MenuItem) (img : String) (catRef : Option Nat) :
    MenuDoc :=
  ⟨i, item.name, item.description, img, item.price, item.rating, item.calories,
   item.protein, catRef⟩

/-- Join creation loop for one menu item: for each customization name one
menu_customizations record with the customization ID looked up by name
(absent when the map has no entry); a per-link failure is logged and
skipped without aborting the sibling links. -/
def createJoins (env : Env) (itemName : String) (menuId : Nat) (names : List String)
    (cusMap : List (String × Nat)) (s : Store) (n : Nat) : Store × Nat :=
  match names with
  | [] => (s, n)
  | nm :: rest =>
    if env.createJoinErr itemName nm then
      createJoins env itemName menuId rest cusMap s n
    else
      createJoins env itemName menuId rest cusMap
        { s with menuCust := s.menuCust ++ [⟨n, menuId, cusMap.lookup nm⟩] } (n + 1)

/-- Body of one iteration of the menu loop of seed: materialize the image
(never raises), then create the menu document; a per-item failure is
logged and skipped, creating no join records for the item; on success the
join records are created one by one. -/
def createMenuItem (env : Env) (catMap cusMap : List (String × Nat)) (s : Store)
    (n : Nat) (item : MenuItem) : Store × Nat :=
  let r := uploadImageToStorage env item.image_url s n
  if env.createMenuErr item then (r.1, r.2.1)
  else
    createJoins env item.name r.2.1 item.customizations cusMap
      { r.1 with
        menu := r.1.menu ++ [mkMenuDoc r.2.1 item r.2.2 (catMap.lookup item.category_name)] }
      (r.2.1 + 1)

/-- Menu creation loop of seed: items processed one at a time in order. -/
def createMenuItems (env : Env) (catMap cusMap : List (String × Nat))
    (items : List MenuItem) (s : Store) (n : Nat) : Store × Nat :=
  match items with
  | [] => (s, n)
  | item :: rest =>
    let r := createMenuItem env catMap cusMap s n item
    createMenuItems env catMap cusMap rest r.1 r.2

/-- Creation phases of seed after the clears: categories, then
customizations, then menu items with their join records. -/
def createAll (env : Env) (d : DummyData) (s : Store) (n : Nat) : Store × Nat :=
  let r1 := createCategories env d.categories s n []
  let r2 := createCustomizations env d.customizations r1.1 r1.2.1 []
  createMenuItems env r1.2.2 r2.2.2 d.menu r2.1 r2.2.1

/-- Try block of seed: clear the four collections and the bucket in
order, aborting on the first error a clear surfaces, then run the create
phases, which recover from every per-item failure themselves. -/
def seedBody (env : Env) (d : DummyData) (s : Store) (n : Nat) :
    (Store × Nat) × Option RErr :=
  let r1 := clearAll (fun x : CategoryDoc => x.id) (env.listFails Col.categories)
    (env.deleteErr Col.categories) s.categories
  let s1 := { s with categories := r1.1 }
  match r1.2 with
  | some e => ((s1, n), some e)
  | none =>
    let r2 := clearAll (fun x : CustomizationDoc => x.id)
      (env.listFails Col.customizations) (env.deleteErr Col.customizations)
      s1.customizations
    let s2 := { s1 with customizations := r2.1 }
    match r2.2 with
    | some e => ((s2, n), some e)
    | none =>
      let r3 := clearAll (fun x : MenuDoc => x.id) (env.listFails Col.menu)
        (env.deleteErr Col.menu) s2.menu
      let s3 := { s2 with menu := r3.1 }
      match r3.2 with
      | some e => ((s3, n), some e)
      | none =>
        let r4 := clearAll (fun x : MenuCustDoc => x.id) (env.listFails Col.menuCust)
          (env.deleteErr Col.menuCust) s3.menuCust
        let s4 := { s3 with menuCust := r4.1 }
        match r4.2 with
        | some e => ((s4, n), some e)
        | none =>
          let r5 := clearStorage env s4.files
          let s5 := { s4 with files := r5.1 }
          match r5.2 with
          | some e => ((s5, n), some e)
          | none => (createAll env d s5 n, none)

/-- Process state around the orchestrator: the remote store, the fresh-ID
counter, and the module-level isSeeding flag. -/
structure SeedState where
  store : Store
  nextId : Nat
  isSeeding : Bool
  deriving Repr, DecidableEq

/-- Function seed of the source: if a run is already in flight the call
logs a notice and returns with no side effect; otherwise the flag is set,
the body runs, any error the body surfaces is caught and logged at the
top level, and the finally block clears the flag.  The second component
is the exception propagated to the caller, none by the top-level catch. -/
def seed (env : Env) (d : DummyData) (st : SeedState) : SeedState × Option RErr :=
  if st.isSeeding then (st, none)
  else
    let r := seedBody env d st.store st.nextId
    (⟨r.1.1, r.1.2, false⟩, none)

/-- Press handler of the Seed button on the Search screen: call seed and
run the catch branch only when seed rejects.  The Bool records whether
the catch branch executed. -/
def searchOnPress (env : Env) (d : DummyData) (st : SeedState) : SeedState × Bool :=
  let r := seed env d st
  (r.1, r.2.isSome)

/-- Record counts of the four collections: categories, customizations,
menu items, join records. -/
def storeCounts (s : Store) : Nat × Nat × Nat × Nat :=
  (s.categories.length, s.customizations.length, s.menu.length, s.menuCust.length)

/-- Concrete menu item of the end-to-end scenario. -/
def item0 : MenuItem where
  name := "Margherita"
  description := "Classic pizza"
  image_url := "https://example.com/margherita.png"
  price := 10
  rating := 5
  calories := 800
  protein := 30
  category_name := "Pizza"
  customizations := ["Extra Cheese"]

/-- Concrete dataset of the end-to-end scenario: two categories, one
customization, one menu item referencing both. -/
def d0 : DummyData where
  categories := [⟨"Pizza", "Italian classics"⟩, ⟨"Drinks", "Cold beverages"⟩]
  customizations := [⟨"Extra Cheese", 3 / 2, "topping"⟩]
  menu := [item0]

/-! Helper lemmas shared by the claim theorems. -/

/-- Closed form of uploadImageToStorage: placeholder on any failure,
otherwise a fresh file and its view URL. -/
theorem uploadImageToStorage_closed (env : Env) (url : String) (s : Store) (n : Nat) :
    uploadImageToStorage env url s n =
      if env.fetchThrows url || !env.fetchOk url || env.createFileErr url then
        (s, n, placeholderURL)
      else
        ({ s with files := s.files ++ [⟨n, fileNameOf url⟩] }, n + 1, getFileViewURL n) := by
  cases h1 : env.fetchThrows url <;> cases h2 : env.fetchOk url <;>
    cases h3 : env.createFileErr url <;>
      simp [uploadImageToStorage, uploadImageAttempt, h1, h2, h3]

/-- Image upload touches only the bucket: the four collections are
unchanged, whatever the outcome. -/
theorem uploadImageToStorage_pres (env : Env) (url : String) (s : Store) (n : Nat) :
    ((uploadImageToStorage env url s n).1).categories = s.categories ∧
    ((uploadImageToStorage env url s n).1).customizations = s.customizations ∧
    ((uploadImageToStorage env url s n).1).menu = s.menu ∧
    ((uploadImageToStorage env url s n).1).menuCust = s.menuCust := by
  rw [uploadImageToStorage_closed]
  split <;> simp

/-- Join creation adds exactly one record per name whose create call
succeeds. -/
theorem createJoins_len (env : Env) (iname : String) (mid : Nat)
    (cusMap : List (String × Nat)) :
    ∀ (names : List String) (s : Store) (n : Nat),
      ((createJoins env iname mid names cusMap s n).1).menuCust.length
        = s.menuCust.length + (names.filter (fun x => !env.createJoinErr iname x)).length := by
  intro names
  induction names with
  | nil => intro s n; simp [createJoins]
  | cons nm rest ih =>
    intro s n
    by_cases h : env.createJoinErr iname nm = true
    · simp [createJoins, h, ih]
    · rw [Bool.not_eq_true] at h
      simp [createJoins, h, ih]
      omega

/-- Join creation touches only the join collection. -/
theorem createJoins_pres (env : Env) (iname : String) (mid : Nat)
    (cusMap : List (String × Nat)) :
    ∀ (names : List String) (s : Store) (n : Nat),
      ((createJoins env iname mid names cusMap s n).1).categories = s.categories ∧
      ((createJoins env iname mid names cusMap s n).1).customizations = s.customizations ∧
      ((createJoins env iname mid names cusMap s n).1).menu = s.menu ∧
      ((createJoins env iname mid names cusMap s n).1).files = s.files := by
  intro names
  induction names with
  | nil => intro s n; simp [createJoins]
  | cons nm rest ih =>
    intro s n
    by_cases h : env.createJoinErr iname nm = true
    · simp [createJoins, h, ih]
    · rw [Bool.not_eq_true] at h
      simp [createJoins, h, ih]

/-! Claim theorems. -/

/-- C5: the safe deletion helper succeeds without raising when the remote
delete reports 404, raises exactly the error code when the remote fails
with any other code, and on a successful delete the record with the given
ID is removed from the result. -/
theorem c5_safe_delete {α : Type} (idOf : α → Nat) (e : Option Nat) (docs : List α)
    (i : Nat) :
    (e = some 404 → safeDeleteDocument idOf e docs i = Except.ok docs) ∧
    (∀ c, e = some c → c ≠ 404 → safeDeleteDocument idOf e docs i = Except.error c) ∧
    (e = none →
      safeDeleteDocument idOf e docs i
        = Except.ok (docs.filter (fun doc => idOf doc != i)) ∧
      ∀ doc ∈ docs.filter (fun doc => idOf doc != i), idOf doc ≠ i) := by
  refine ⟨?_, ?_, ?_⟩
  · intro h; subst h; simp [safeDeleteDocument, deleteDocument]
  · intro c h hc; subst h; simp [safeDeleteDocument, deleteDocument, hc]
  · intro h; subst h
    refine ⟨by simp [safeDeleteDocument, deleteDocument], ?_⟩
    intro doc hmem
    have := List.mem_filter.mp hmem
    simpa using this.2

/-- C5 witness on a concrete bucket file: a 404 delete is swallowed, a 500
delete is rethrown, a successful delete removes the record. -/
theorem c5_safe_delete_witness :
    safeDeleteDocument (fun f : FileDoc => f.id) (some 404) [⟨7, "a.jpg"⟩] 7
      = Except.ok [⟨7, "a.jpg"⟩] ∧
    safeDeleteDocument (fun f : FileDoc => f.id) (some 500) [⟨7, "a.jpg"⟩] 7
      = Except.error 500 ∧
    safeDeleteDocument (fun f : FileDoc => f.id) none [⟨7, "a.jpg"⟩] 7
      = Except.ok [] :=
  ⟨(c5_safe_delete (fun f : FileDoc => f.id) (some 404) [⟨7, "a.jpg"⟩] 7).1 rfl,
   (c5_safe_delete (fun f : FileDoc => f.id) (some 500) [⟨7, "a.jpg"⟩] 7).2.1 500 rfl
     (by decide),
   ((c5_safe_delete (fun f : FileDoc => f.id) none [⟨7, "a.jpg"⟩] 7).2.2 rfl).1⟩

/-- C3: a second invocation while a run is in flight returns immediately
with no effect on the store, the counter or the flag; and an invocation
that actually runs ends with the flag cleared, for every behavior of the
remote store, so a failed run never leaves the flag set. -/
theorem c3_single_flight (env : Env) (d : DummyData) (st : SeedState) :
    (st.isSeeding = true → seed env d st = (st, none)) ∧
    (st.isSeeding = false → ((seed env d st).1).isSeeding = false) := by
  constructor
  · intro h; simp [seed, h]
  · intro h; simp [seed, h]

/-- C3 witness: concrete busy and idle states. -/
theorem c3_single_flight_witness :
    seed envOk d0 ⟨emptyStore, 0, true⟩ = (⟨emptyStore, 0, true⟩, none) ∧
    ((seed envOk d0 ⟨emptyStore, 0, false⟩).1).isSeeding = false :=
  ⟨(c3_single_flight envOk d0 ⟨emptyStore, 0, true⟩).1 rfl,
   (c3_single_flight envOk d0 ⟨emptyStore, 0, false⟩).2 rfl⟩

/-- C8: for every remote behavior, dataset and starting state, seed
propagates no exception to its caller, so the catch branch of the Seed
button handler on the Search screen never executes. -/
theorem c8_never_rejects (env : Env) (d : DummyData) (st : SeedState) :
    (seed env d st).2 = none ∧ (searchOnPress env d st).2 = false := by
  cases h : st.isSeeding <;> simp [seed, searchOnPress, h]

/-- C10: a join record whose customization name is absent from the name
map is still created, with an absent customization reference, rather than
the link being skipped. -/
theorem c10_join_missing_ref (env : Env) (iname : String) (mid : Nat) (nm : String)
    (rest : List String) (cusMap : List (String × Nat)) (s : Store) (n : Nat)
    (hjoin : env.createJoinErr iname nm = false) (hmap : cusMap.lookup nm = none) :
    createJoins env iname mid (nm :: rest) cusMap s n
      = createJoins env iname mid rest cusMap
          { s with menuCust := s.menuCust ++ [⟨n, mid, none⟩] } (n + 1) := by
  simp [createJoins, hjoin, hmap]

/-- C10 witness: with an empty customization map the join record is still
created, carrying no customization reference. -/
theorem c10_join_missing_ref_witness :
    createJoins envOk "Margherita" 4 ["Extra Cheese"] [] emptyStore 5
      = createJoins envOk "Margherita" 4 [] []
          { emptyStore with menuCust := [⟨5, 4, none⟩] } 6 :=
  c10_join_missing_ref envOk "Margherita" 4 "Extra Cheese" [] [] emptyStore 5 rfl rfl

/-- C4: the image materializer never raises: on a thrown fetch, a non-ok
response, or a failed upload it returns exactly the literal placeholder
string and leaves the store untouched, and the menu document created for
that item carries the placeholder as its image URL; on full success it
returns the public view URL of the freshly uploaded file. -/
theorem c4_image_fallback (env : Env) (url : String) (s : Store) (n : Nat)
    (catMap cusMap : List (String × Nat)) (item : MenuItem) (s2 : Store) (n2 : Nat) :
    (env.fetchThrows url = true ∨ env.fetchOk url = false ∨ env.createFileErr url = true →
      uploadImageToStorage env url s n = (s, n, "https://via.placeholder.com/150")) ∧
    (env.fetchThrows url = false → env.fetchOk url = true → env.createFileErr url = false →
      uploadImageToStorage env url s n
        = ({ s with files := s.files ++ [⟨n, fileNameOf url⟩] }, n + 1, getFileViewURL n)) ∧
    (env.fetchThrows item.image_url = true ∨ env.fetchOk item.image_url = false ∨
        env.createFileErr item.image_url = true →
      env.createMenuErr item = false →
      createMenuItem env catMap cusMap s2 n2 item
        = createJoins env item.name n2 item.customizations cusMap
            { s2 with menu := s2.menu ++
                [mkMenuDoc n2 item placeholderURL (catMap.lookup item.category_name)] }
            (n2 + 1)) := by
  have key : ∀ (u : String) (s3 : Store) (n3 : Nat),
      env.fetchThrows u = true ∨ env.fetchOk u = false ∨ env.createFileErr u = true →
      uploadImageToStorage env u s3 n3 = (s3, n3, placeholderURL) := by
    intro u s3 n3 h
    rw [uploadImageToStorage_closed]
    rcases h with h | h | h <;> simp [h]
  refine ⟨?_, ?_, ?_⟩
  · intro h; exact key url s n h
  · intro h1 h2 h3
    rw [uploadImageToStorage_closed]
    simp [h1, h2, h3]
  · intro h hm
    unfold createMenuItem
    rw [key item.image_url s2 n2 h, hm]
    simp

/-- C4 witness: a concrete environment whose fetch reports a non-ok
response yields the literal placeholder and a menu document carrying it,
and the all-success environment yields the view URL of the new file. -/
theorem c4_image_fallback_witness :
    uploadImageToStorage { envOk with fetchOk := fun _ => false } "u" emptyStore 0
      = (emptyStore, 0, "https://via.placeholder.com/150") ∧
    uploadImageToStorage envOk "u" emptyStore 0
      = ({ emptyStore with files := [⟨0, fileNameOf "u"⟩] }, 1, getFileViewURL 0) ∧
    createMenuItem { envOk with fetchOk := fun _ => false } [] [] emptyStore 0 item0
      = createJoins { envOk with fetchOk := fun _ => false } item0.name 0
          item0.customizations []
          { emptyStore with menu := [mkMenuDoc 0 item0 placeholderURL none] } 1 :=
  ⟨(c4_image_fallback { envOk with fetchOk := fun _ => false } "u" emptyStore 0 [] []
      item0 emptyStore 0).1 (Or.inr (Or.inl rfl)),
   (c4_image_fallback envOk "u" emptyStore 0 [] [] item0 emptyStore 0).2.1 rfl rfl rfl,
   (c4_image_fallback { envOk with fetchOk := fun _ => false } "u" emptyStore 0 [] []
      item0 emptyStore 0).2.2 (Or.inr (Or.inl rfl)) rfl⟩

/-- C9: a bulk clear over a listed snapshot settles every issued delete:
the surviving documents are exactly those whose delete failed with a
non-404 code, on an error-free run the collection is left empty, an error
surfaces iff some listed delete fails with a non-404 code, a document
survives iff its safeDeleteDocument call rethrows, and clearStorage is
the same procedure over the bucket files. -/
theorem c9_bulk_clear {α : Type} (idOf : α → Nat) (derr : Nat → Option Nat)
    (docs : List α) (env : Env) (files : List FileDoc) :
    (clearAll idOf false derr docs).1
        = docs.filter (fun doc => isKept (derr (idOf doc))) ∧
    ((clearAll idOf false derr docs).2 = none → (clearAll idOf false derr docs).1 = []) ∧
    ((clearAll idOf false derr docs).2 ≠ none ↔
        ∃ doc ∈ docs, hardErr (derr (idOf doc)) ≠ none) ∧
    (∀ doc ∈ docs, isKept (derr (idOf doc)) = true ↔
        ∃ c, safeDeleteDocument idOf (derr (idOf doc)) docs (idOf doc)
          = Except.error c) ∧
    clearStorage env files
      = clearAll (fun f => f.id) (env.listFails Col.storage)
          (env.deleteErr Col.storage) files := by
  refine ⟨by simp [clearAll], ?_, ?_, ?_, rfl⟩
  · intro h
    simp only [clearAll, if_neg Bool.false_ne_true, Option.map_eq_none'] at h
    have hall := List.findSome?_eq_none_iff.mp h
    simp only [clearAll, if_neg Bool.false_ne_true]
    refine List.filter_eq_nil_iff.mpr ?_
    intro doc hmem
    simp [isKept, hall doc hmem]
  · constructor
    · intro h
      simp only [clearAll, if_neg Bool.false_ne_true, ne_eq, Option.map_eq_none'] at h
      have := mt List.findSome?_eq_none_iff.mpr h
      push_neg at this
      exact this
    · intro ⟨doc, hmem, hne⟩
      simp only [clearAll, if_neg Bool.false_ne_true, ne_eq, Option.map_eq_none']
      intro h
      exact hne (List.findSome?_eq_none_iff.mp h doc hmem)
  · intro doc _
    cases h : derr (idOf doc) with
    | none => simp [isKept, hardErr, safeDeleteDocument, deleteDocument, h]
    | some c =>
      by_cases hc : c = 404
      · subst hc; simp [isKept, hardErr, safeDeleteDocument, deleteDocument, h]
      · simp [isKept, hardErr, safeDeleteDocument, deleteDocument, h, hc]

/-- C9 witness on a concrete bucket: a 500 delete among two files keeps
exactly that file, surfaces an error, and matches the rethrow of its
safeDeleteDocument call. -/
theorem c9_bulk_clear_witness :
    (clearAll (fun f : FileDoc => f.id) false (fun i => if i = 1 then some 500 else none)
        [⟨0, "a"⟩, ⟨1, "b"⟩]).1
      = [⟨0, "a"⟩, ⟨1, "b"⟩].filter
          (fun doc => isKept ((fun i => if i = 1 then some 500 else none) doc.id)) ∧
    ((clearAll (fun f : FileDoc => f.id) false (fun i => if i = 1 then some 500 else none)
        [⟨0, "a"⟩, ⟨1, "b"⟩]).2 ≠ none ↔
      ∃ doc ∈ [(⟨0, "a"⟩ : FileDoc), ⟨1, "b"⟩],
        hardErr ((fun i => if i = 1 then some 500 else none) doc.id) ≠ none) :=
  ⟨(c9_bulk_clear (fun f : FileDoc => f.id) (fun i => if i = 1 then some 500 else none)
      [⟨0, "a"⟩, ⟨1, "b"⟩] envOk []).1,
   (c9_bulk_clear (fun f : FileDoc => f.id) (fun i => if i = 1 then some 500 else none)
      [⟨0, "a"⟩, ⟨1, "b"⟩] envOk []).2.2.1⟩

/-- Category creation adds exactly one record per category whose create
call succeeds, and touches no other part of the store. -/
theorem createCategories_len_pres (env : Env) :
    ∀ (cats : List Category) (s : Store) (n : Nat) (m : List (String × Nat)),
      (((createCategories env cats s n m).1).categories.length
        = s.categories.length + (cats.filter (fun c => !env.createCatErr c)).length) ∧
      ((createCategories env cats s n m).1).customizations = s.customizations ∧
      ((createCategories env cats s n m).1).menu = s.menu ∧
      ((createCategories env cats s n m).1).menuCust = s.menuCust ∧
      ((createCategories env cats s n m).1).files = s.files := by
  intro cats
  induction cats with
  | nil => intro s n m; simp [createCategories]
  | cons c rest ih =>
    intro s n m
    by_cases h : env.createCatErr c = true
    · simp [createCategories, h, ih]
    · rw [Bool.not_eq_true] at h
      have hrec := ih { s with categories := s.categories ++ [⟨n, c⟩] } (n + 1) ((c.name, n) :: m)
      simp only [createCategories, h, if_false, Bool.false_eq_true] at hrec ⊢
      refine ⟨?_, hrec.2⟩
      rw [hrec.1, List.filter_cons]
      simp [h]
      omega

/-- Category names that only fail keep the name map free of them: when
every category bearing a given name has a failing create call, a map
without that name stays without it. -/
theorem createCategories_lookup_none (env : Env) (nm : String) :
    ∀ (cats : List Category) (s : Store) (n : Nat) (m : List (String × Nat)),
      (∀ c ∈ cats, c.name = nm → env.createCatErr c = true) →
      m.lookup nm = none →
      ((createCategories env cats s n m).2.2).lookup nm = none := by
  intro cats
  induction cats with
  | nil => intro s n m _ hm; simpa [createCategories] using hm
  | cons c rest ih =>
    intro s n m hall hm
    by_cases h : env.createCatErr c = true
    · simp only [createCategories, h, if_true]
      exact ih s n m (fun x hx => hall x (List.mem_cons_of_mem c hx)) hm
    · rw [Bool.not_eq_true] at h
      have hne : c.name ≠ nm := by
        intro heq
        rw [hall c (List.mem_cons_self c rest) heq] at h
        simp at h
      have hb : (nm == c.name) = false :=
        beq_eq_false_iff_ne.mpr (fun hh => hne hh.symm)
      simp only [createCategories, h, Bool.false_eq_true, if_false]
      refine ih _ _ _ (fun x hx => hall x (List.mem_cons_of_mem c hx)) ?_
      simp [List.lookup, hm, hb]

/-- Customization creation adds exactly one record per customization
whose create call succeeds, and touches no other part of the store. -/
theorem createCustomizations_len_pres (env : Env) :
    ∀ (cuss : List Customization) (s : Store) (n : Nat) (m : List (String × Nat)),
      (((createCustomizations env cuss s n m).1).customizations.length
        = s.customizations.length + (cuss.filter (fun c => !env.createCusErr c)).length) ∧
      ((createCustomizations env cuss s n m).1).categories = s.categories ∧
      ((createCustomizations env cuss s n m).1).menu = s.menu ∧
      ((createCustomizations env cuss s n m).1).menuCust = s.menuCust ∧
      ((createCustomizations env cuss s n m).1).files = s.files := by
  intro cuss
  induction cuss with
  | nil => intro s n m; simp [createCustomizations]
  | cons c rest ih =>
    intro s n m
    by_cases h : env.createCusErr c = true
    · simp [createCustomizations, h, ih]
    · rw [Bool.not_eq_true] at h
      have hrec := ih { s with customizations := s.customizations ++ [⟨n, c⟩] } (n + 1)
        ((c.name, n) :: m)
      simp only [createCustomizations, h, if_false, Bool.false_eq_true] at hrec ⊢
      refine ⟨?_, hrec.2⟩
      rw [hrec.1, List.filter_cons]
      simp [h]
      omega

/-- C6: when the create calls of exactly the categories bearing one name
fail and every other create succeeds, all other categories are still
created, the failed name is absent from the name map, and a menu item
referencing the failed name is still created, with an absent category
reference, its join records still attempted; customizations recover per
item the same way. -/
theorem c6_partial_category_failure (env : Env) (nm : String) (cats : List Category)
    (s : Store) (n : Nat) (m : List (String × Nat))
    (hall : ∀ c ∈ cats, (env.createCatErr c = true ↔ c.name = nm)) :
    (((createCategories env cats s n m).1).categories.length
        = s.categories.length + (cats.filter (fun c => c.name != nm)).length) ∧
    (m.lookup nm = none → ((createCategories env cats s n m).2.2).lookup nm = none) ∧
    (∀ (cusMap : List (String × Nat)) (item : MenuItem) (s2 : Store) (n2 : Nat),
      item.category_name = nm → env.createMenuErr item = false → m.lookup nm = none →
      createMenuItem env ((createCategories env cats s n m).2.2) cusMap s2 n2 item
        = (let r := uploadImageToStorage env item.image_url s2 n2
           createJoins env item.name r.2.1 item.customizations cusMap
             { r.1 with menu := r.1.menu ++ [mkMenuDoc r.2.1 item r.2.2 none] }
             (r.2.1 + 1))) ∧
    (∀ (nm2 : String) (cuss : List Customization) (s3 : Store) (n3 : Nat)
        (m3 : List (String × Nat)),
      (∀ cu ∈ cuss, (env.createCusErr cu = true ↔ cu.name = nm2)) →
      ((createCustomizations env cuss s3 n3 m3).1).customizations.length
        = s3.customizations.length + (cuss.filter (fun cu => cu.name != nm2)).length) :=
  by
  have hlook : m.lookup nm = none →
      ((createCategories env cats s n m).2.2).lookup nm = none :=
    createCategories_lookup_none env nm cats s n m
      (fun c hc heq => (hall c hc).mpr heq)
  refine ⟨?_, hlook, ?_, ?_⟩
  · have hlen := (createCategories_len_pres env cats s n m).1
    rw [hlen]
    congr 1
    congr 1
    refine List.filter_congr ?_
    intro c hc
    cases h : env.createCatErr c with
    | true => simp [(hall c hc).mp h]
    | false =>
      have hne : c.name ≠ nm := fun heq => by
        rw [(hall c hc).mpr heq] at h; simp at h
      simp [hne]
  · intro cusMap item s2 n2 hname hm hm0
    unfold createMenuItem
    rw [hm]
    simp only [Bool.false_eq_true, if_false]
    rw [hname, hlook hm0]
  · intro nm2 cuss s3 n3 m3 hall2
    rw [(createCustomizations_len_pres env cuss s3 n3 m3).1]
    congr 1
    congr 1
    refine List.filter_congr ?_
    intro cu hcu
    cases h : env.createCusErr cu with
    | true => simp [(hall2 cu hcu).mp h]
    | false =>
      have hne : cu.name ≠ nm2 := fun heq => by
        rw [(hall2 cu hcu).mpr heq] at h; simp at h
      simp [hne]

/-- C6 witness: with exactly the Pizza create call failing on the
concrete dataset, the Drinks category is still created, Pizza is absent
from the map, and the Margherita item is created with an absent category
reference. -/
theorem c6_partial_category_failure_witness :
    ((((createCategories { envOk with createCatErr := fun c => c.name == "Pizza" }
        d0.categories emptyStore 0 []).1).categories.length
      = emptyStore.categories.length
        + (d0.categories.filter (fun c => c.name != "Pizza")).length) ∧
    ((createCategories { envOk with createCatErr := fun c => c.name == "Pizza" }
        d0.categories emptyStore 0 []).2.2).lookup "Pizza" = none ∧
    createMenuItem { envOk with createCatErr := fun c => c.name == "Pizza" }
        ((createCategories { envOk with createCatErr := fun c => c.name == "Pizza" }
          d0.categories emptyStore 0 []).2.2) [] emptyStore 0 item0
      = (let r := uploadImageToStorage
            { envOk with createCatErr := fun c => c.name == "Pizza" }
            item0.image_url emptyStore 0
         createJoins { envOk with createCatErr := fun c => c.name == "Pizza" }
           item0.name r.2.1 item0.customizations []
           { r.1 with menu := r.1.menu ++ [mkMenuDoc r.2.1 item0 r.2.2 none] }
           (r.2.1 + 1))) :=
  ⟨(c6_partial_category_failure { envOk with createCatErr := fun c => c.name == "Pizza" }
      "Pizza" d0.categories emptyStore 0 [] (by decide)).1,
   (c6_partial_category_failure { envOk with createCatErr := fun c => c.name == "Pizza" }
      "Pizza" d0.categories emptyStore 0 [] (by decide)).2.1 rfl,
   (c6_partial_category_failure { envOk with createCatErr := fun c => c.name == "Pizza" }
      "Pizza" d0.categories emptyStore 0 [] (by decide)).2.2.1 [] item0 emptyStore 0
      rfl rfl rfl⟩

/-- C7: a failed menu item create is caught, leaves the menu and join
collections untouched (so no join record of that item is created), and
processing continues with the next item; a failed join create is skipped
without aborting the sibling links, which all still add their records. -/
theorem c7_menu_item_failure (env : Env) (catMap cusMap : List (String × Nat))
    (s : Store) (n : Nat) (item : MenuItem) (rest : List MenuItem) :
    (env.createMenuErr item = true →
      ((createMenuItem env catMap cusMap s n item).1.menu = s.menu ∧
       (createMenuItem env catMap cusMap s n item).1.menuCust = s.menuCust ∧
       createMenuItems env catMap cusMap (item :: rest) s n
         = createMenuItems env catMap cusMap rest
             (uploadImageToStorage env item.image_url s n).1
             (uploadImageToStorage env item.image_url s n).2.1)) ∧
    (∀ (iname : String) (mid : Nat) (nm : String) (rest2 : List String)
        (s3 : Store) (n3 : Nat),
      env.createJoinErr iname nm = true →
      createJoins env iname mid (nm :: rest2) cusMap s3 n3
        = createJoins env iname mid rest2 cusMap s3 n3) ∧
    (∀ (iname : String) (mid : Nat) (names : List String) (s3 : Store) (n3 : Nat),
      ((createJoins env iname mid names cusMap s3 n3).1).menuCust.length
        = s3.menuCust.length + (names.filter (fun x => !env.createJoinErr iname x)).length) := by
  refine ⟨?_, ?_, ?_⟩
  · intro h
    have hp := uploadImageToStorage_pres env item.image_url s n
    refine ⟨?_, ?_, ?_⟩
    · simp [createMenuItem, h, hp.2.2.1]
    · simp [createMenuItem, h, hp.2.2.2]
    · simp [createMenuItems, createMenuItem, h]
  · intro iname mid nm rest2 s3 n3 h
    simp [createJoins, h]
  · intro iname mid names s3 n3
    exact createJoins_len env iname mid cusMap names s3 n3

/-- C7 witness: with the Margherita create call failing, the menu and
join collections stay empty and the loop moves on; a failing first join
name is skipped while the sibling link is still created. -/
theorem c7_menu_item_failure_witness :
    ((createMenuItem { envOk with createMenuErr := fun it => it.name == "Margherita" }
        [] [] emptyStore 0 item0).1.menu = emptyStore.menu ∧
     (createMenuItem { envOk with createMenuErr := fun it => it.name == "Margherita" }
        [] [] emptyStore 0 item0).1.menuCust = emptyStore.menuCust ∧
     createMenuItems { envOk with createMenuErr := fun it => it.name == "Margherita" }
        [] [] (item0 :: []) emptyStore 0
       = createMenuItems { envOk with createMenuErr := fun it => it.name == "Margherita" }
           [] [] []
           (uploadImageToStorage
             { envOk with createMenuErr := fun it => it.name == "Margherita" }
             item0.image_url emptyStore 0).1
           (uploadImageToStorage
             { envOk with createMenuErr := fun it => it.name == "Margherita" }
             item0.image_url emptyStore 0).2.1) ∧
    ((createJoins { envOk with createJoinErr := fun _ nm => nm == "Olives" }
        "Margherita" 9 ["Olives", "Extra Cheese"] [] emptyStore 0).1).menuCust.length
      = emptyStore.menuCust.length
        + ((["Olives", "Extra Cheese"].filter
            (fun x => !({ envOk with createJoinErr := fun _ nm => nm == "Olives" } :
              Env).createJoinErr "Margherita" x)).length) :=
  ⟨(c7_menu_item_failure { envOk with createMenuErr := fun it => it.name == "Margherita" }
      [] [] emptyStore 0 item0 []).1 rfl,
   (c7_menu_item_failure { envOk with createJoinErr := fun _ nm => nm == "Olives" }
      [] [] emptyStore 0 item0 []).2.2 "Margherita" 9 ["Olives", "Extra Cheese"]
      emptyStore 0⟩

/-- Bulk clear in the all-success environment empties the collection and
surfaces no error. -/
theorem clearAll_ok {α : Type} (idOf : α → Nat) (docs : List α) :
    clearAll idOf false (fun _ => none) docs = ([], none) := by
  simp [clearAll, isKept, hardErr]

/-- Seed body in the all-success environment: the clears leave the store
empty and the create phases then run from the empty store. -/
theorem seedBody_envOk (d : DummyData) (s : Store) (n : Nat) :
    seedBody envOk d s n = (createAll envOk d emptyStore n, none) := by
  simp [seedBody, clearStorage, envOk, clearAll_ok, emptyStore]

/-- Flag state after a run that was allowed to start. -/
theorem seed_isSeeding_false (env : Env) (d : DummyData) (st : SeedState)
    (h : st.isSeeding = false) : ((seed env d st).1).isSeeding = false := by
  simp [seed, h]

/-- One menu item in the all-success environment adds one menu record and
one join record per listed customization name, leaving the category and
customization collections unchanged. -/
theorem createMenuItem_envOk (catMap cusMap : List (String × Nat)) (s : Store)
    (n : Nat) (item : MenuItem) :
    (((createMenuItem envOk catMap cusMap s n item).1).menu.length
      = s.menu.length + 1) ∧
    (((createMenuItem envOk catMap cusMap s n item).1).menuCust.length
      = s.menuCust.length + item.customizations.length) ∧
    ((createMenuItem envOk catMap cusMap s n item).1).categories = s.categories ∧
    ((createMenuItem envOk catMap cusMap s n item).1).customizations
      = s.customizations := by
  obtain ⟨h1, h2, h3, h4⟩ := uploadImageToStorage_pres envOk item.image_url s n
  simp only [createMenuItem, show envOk.createMenuErr item = false from rfl,
    Bool.false_eq_true, if_false]
  refine ⟨?_, ?_, ?_, ?_⟩
  · rw [(createJoins_pres envOk item.name _ cusMap item.customizations _ _).2.2.1]
    simp [h3]
  · rw [createJoins_len envOk item.name _ cusMap item.customizations _ _]
    simp only [show (fun x => !envOk.createJoinErr item.name x) = fun _ => true from rfl,
      List.filter_true]
    simp [h4]
  · rw [(createJoins_pres envOk item.name _ cusMap item.customizations _ _).1]
    simp [h1]
  · rw [(createJoins_pres envOk item.name _ cusMap item.customizations _ _).2.1]
    simp [h2]

/-- Menu loop in the all-success environment: one menu record per item
and one join record per listed pair. -/
theorem createMenuItems_envOk (catMap cusMap : List (String × Nat)) :
    ∀ (items : List MenuItem) (s : Store) (n : Nat),
      (((createMenuItems envOk catMap cusMap items s n).1).menu.length
        = s.menu.length + items.length) ∧
      (((createMenuItems envOk catMap cusMap items s n).1).menuCust.length
        = s.menuCust.length + (items.map (fun it => it.customizations.length)).sum) ∧
      ((createMenuItems envOk catMap cusMap items s n).1).categories = s.categories ∧
      ((createMenuItems envOk catMap cusMap items s n).1).customizations
        = s.customizations := by
  intro items
  induction items with
  | nil => intro s n; simp [createMenuItems]
  | cons item rest ih =>
    intro s n
    obtain ⟨m1, m2, m3, m4⟩ := createMenuItem_envOk catMap cusMap s n item
    obtain ⟨r1, r2, r3, r4⟩ := ih ((createMenuItem envOk catMap cusMap s n item).1)
      ((createMenuItem envOk catMap cusMap s n item).2)
    simp only [createMenuItems]
    refine ⟨?_, ?_, ?_, ?_⟩
    · rw [r1, m1]; simp; omega
    · rw [r2, m2]; simp; omega
    · rw [r3, m3]
    · rw [r4, m4]

/-- Record counts produced by a seed run in which every remote operation
succeeds: one category per dataset category, one customization per
dataset customization, one menu record per dataset item, one join record
per listed item-customization pair, whatever store the run started from. -/
theorem seed_counts_envOk (d : DummyData) (st : SeedState)
    (h : st.isSeeding = false) :
    storeCounts ((seed envOk d st).1).store
      = (d.categories.length, d.customizations.length, d.menu.length,
         (d.menu.map (fun it => it.customizations.length)).sum) := by
  simp only [seed, h, Bool.false_eq_true, if_false, seedBody_envOk]
  simp only [createAll, storeCounts]
  obtain ⟨a1, a2, a3, a4, a5⟩ :=
    createCategories_len_pres envOk d.categories emptyStore st.nextId []
  obtain ⟨b1, b2, b3, b4, b5⟩ := createCustomizations_len_pres envOk d.customizations
    (createCategories envOk d.categories emptyStore st.nextId []).1
    (createCategories envOk d.categories emptyStore st.nextId []).2.1 []
  obtain ⟨c1, c2, c3, c4⟩ := createMenuItems_envOk
    (createCategories envOk d.categories emptyStore st.nextId []).2.2
    (createCustomizations envOk d.customizations
      (createCategories envOk d.categories emptyStore st.nextId []).1
      (createCategories envOk d.categories emptyStore st.nextId []).2.1 []).2.2
    d.menu
    (createCustomizations envOk d.customizations
      (createCategories envOk d.categories emptyStore st.nextId []).1
      (createCategories envOk d.categories emptyStore st.nextId []).2.1 []).1
    (createCustomizations envOk d.customizations
      (createCategories envOk d.categories emptyStore st.nextId []).1
      (createCategories envOk d.categories emptyStore st.nextId []).2.1 []).2.1
  refine Prod.ext ?_ (Prod.ext ?_ (Prod.ext ?_ ?_)) <;> simp only
  · rw [c3, b2, a1]
    simp [envOk, emptyStore]
  · rw [c4, b1, a2]
    simp [envOk, emptyStore]
  · rw [c1, b3, a3]
    simp [emptyStore]
  · rw [c2, b4, a4]
    simp [emptyStore]

/-- C2: for every seed dataset, running the seed twice in succession from
an empty store with every remote operation succeeding leaves the same
final counts of categories, customizations, menu items and join records
as running it once. -/
theorem c2_seed_idempotent (d : DummyData) :
    storeCounts (((seed envOk d (seed envOk d ⟨emptyStore, 0, false⟩).1).1).store)
      = storeCounts (((seed envOk d ⟨emptyStore, 0, false⟩).1).store) := by
  rw [seed_counts_envOk d ⟨emptyStore, 0, false⟩ rfl,
    seed_counts_envOk d (seed envOk d ⟨emptyStore, 0, false⟩).1
      (seed_isSeeding_false envOk d ⟨emptyStore, 0, false⟩ rfl)]

/-- C1: seeding the concrete two-category, one-customization, one-item
dataset into an empty store with every remote create succeeding ends with
two category records, one customization record, one menu record whose
category reference is the ID generated for the Pizza category in that
run, and exactly one join record linking that menu record to that
customization record. -/
theorem c1_end_to_end :
    (((seed envOk d0 ⟨emptyStore, 0, false⟩).1).store.categories.length = 2) ∧
    (((seed envOk d0 ⟨emptyStore, 0, false⟩).1).store.customizations.length = 1) ∧
    (((seed envOk d0 ⟨emptyStore, 0, false⟩).1).store.menu.length = 1) ∧
    (((seed envOk d0 ⟨emptyStore, 0, false⟩).1).store.menuCust.length = 1) ∧
    (((seed envOk d0 ⟨emptyStore, 0, false⟩).1).store.categories.any (fun c =>
        c.data.name == "Pizza" &&
        ((seed envOk d0 ⟨emptyStore, 0, false⟩).1).store.menu.all (fun mi =>
          mi.categories == some c.id)) = true) ∧
    (((seed envOk d0 ⟨emptyStore, 0, false⟩).1).store.menuCust.all (fun j =>
        ((seed envOk d0 ⟨emptyStore, 0, false⟩).1).store.menu.all (fun mi =>
          j.menu == mi.id) &&
        ((seed envOk d0 ⟨emptyStore, 0, false⟩).1).store.customizations.all (fun cu =>
          j.customizations == some cu.id)) = true) := by
  decide

end FastFood
